import Mathlib

/-
Shallow embedding of the CrSDK HTTPS server core
(src/src/https_server/https_server.cpp) for verification of its
natural-language specification.

The embedding models:
  * the `std::stoi` integer parsing used by the parameter validator
    (throwing is modelled as `Option.none`);
  * the nlohmann::json response envelope as a key-sorted association
    list (the default-constructed null value is the empty list,
    whose dump is the string "null", as in nlohmann);
  * the httplib response object (status defaults to -1 until a
    handler sets it, as in cpp-httplib);
  * the Device Command Interface (CrSDKInterface, an external
    collaborator whose implementation is not part of the served
    core) as a record of functions, with each handler additionally
    returning the list of interface operations it invoked;
  * the health-monitor probe classification and the restart / run
    control flow as traces of primitive server actions.
-/

namespace CrServer

/-- Model of the character class accepted as leading whitespace by
`std::stoi` (via `strtol` / `isspace` in the "C" locale). -/
def isSpaceChar (c : Char) : Bool :=
  c = ' ' || c = '\t' || c = '\n' || c = '\r' || c = '\x0b' || c = '\x0c'

/-- Drop the leading whitespace that `std::stoi` skips. -/
def dropLeadingSpaces : List Char → List Char
  | [] => []
  | c :: cs => if isSpaceChar c then dropLeadingSpaces cs else c :: cs

/-- Numeric value of a decimal digit character. -/
def digitVal (c : Char) : Nat := c.toNat - '0'.toNat

/-- Value of a list of decimal digit characters, most significant first. -/
def digitsToNat (ds : List Char) : Nat :=
  ds.foldl (fun acc c => acc * 10 + digitVal c) 0

/-- Smallest value of a 32-bit `int`, the result type of `std::stoi`. -/
def intMin : Int := -(2 ^ 31)

/-- Largest value of a 32-bit `int`, the result type of `std::stoi`. -/
def intMax : Int := 2 ^ 31 - 1

/-- After the optional sign, `std::stoi` requires at least one decimal
digit (otherwise it throws `std::invalid_argument`), consumes the
longest digit prefix, and throws `std::out_of_range` when the value
does not fit in `int`.  Both throws are modelled as `none`. -/
def stoiSigned (sign : Int) (cs : List Char) : Option Int :=
  let ds := cs.takeWhile Char.isDigit
  if ds = [] then none
  else
    let v : Int := sign * Int.ofNat (digitsToNat ds)
    if v < intMin ∨ intMax < v then none else some v

/-- Model of `std::stoi` on a query-parameter string: skip leading
whitespace, read an optional sign, then digits.  `none` models a
thrown `std::invalid_argument` or `std::out_of_range`. -/
def stoi (s : String) : Option Int :=
  match dropLeadingSpaces s.data with
  | '-' :: cs => stoiSigned (-1) cs
  | '+' :: cs => stoiSigned 1 cs
  | cs => stoiSigned 1 cs

/-- JSON string escaping as performed by `nlohmann::json::dump` for the
characters that can occur in this server's envelope strings
(quote and backslash; the envelopes contain no control characters). -/
def escapeChar (c : Char) : List Char :=
  if c = '"' then ['\\', '"']
  else if c = '\\' then ['\\', '\\']
  else [c]

/-- Escape a string for inclusion in a JSON dump. -/
def jsonEscape (s : String) : String :=
  String.mk (s.data.foldr (fun c acc => escapeChar c ++ acc) [])

/-- The response envelope built by a handler: an `nlohmann::json` value
that is either the default-constructed null (the empty list) or an
object of string fields kept sorted by key, as `nlohmann::json`
(backed by `std::map`) keeps them. -/
abbrev Envelope := List (String × String)

/-- Lexicographic key order of `std::map<std::string, ...>`, the
container backing `nlohmann::json` objects. -/
def keyLt : List Char → List Char → Bool
  | [], [] => false
  | [], _ :: _ => true
  | _ :: _, [] => false
  | a :: as, b :: bs =>
    if a < b then true else if b < a then false else keyLt as bs

/-- Assignment `j[k] = v` on an `nlohmann::json` object: inserts the
field keeping keys sorted, replacing an existing binding
(a default-constructed null value silently becomes an object). -/
def jsonInsert : Envelope → String → String → Envelope
  | [], k, v => [(k, v)]
  | (k0, v0) :: rest, k, v =>
    if keyLt k.data k0.data then (k, v) :: (k0, v0) :: rest
    else if k = k0 then (k, v) :: rest
    else (k0, v0) :: jsonInsert rest k v

/-- Dump of the fields of a JSON object, comma separated, no spaces,
as `nlohmann::json::dump()` produces with default arguments. -/
def jsonDumpFields : Envelope → String
  | [] => ""
  | [(k, v)] => "\"" ++ jsonEscape k ++ "\":\"" ++ jsonEscape v ++ "\""
  | (k, v) :: rest =>
      "\"" ++ jsonEscape k ++ "\":\"" ++ jsonEscape v ++ "\"," ++ jsonDumpFields rest

/-- Model of `resolution_json.dump()`: a default-constructed
(never-assigned) value dumps as "null", an object as
"\x7b...\x7d" with the fields in key order. -/
def jsonDump (j : Envelope) : String :=
  match j with
  | [] => "null"
  | _ => "\x7b" ++ jsonDumpFields j ++ "\x7d"

/-- Whether the envelope has a field named `k`. -/
def envHas (env : Envelope) (k : String) : Bool :=
  env.any fun p => p.1 == k

/-- Value of field `k` of the envelope, when present. -/
def envGet (env : Envelope) (k : String) : Option String :=
  (env.find? fun p => p.1 == k).map Prod.snd

/-- Model of the `httplib::Response` state a handler mutates:
status code, body, content type and headers. -/
structure Response where
  status : Int
  body : String
  contentType : String
  headers : List (String × String)
deriving DecidableEq, Repr

/-- The response as cpp-httplib hands it to a handler: status is the
sentinel -1 (replaced by the transport after the handler returns if
the handler never assigned it), empty body, no headers. -/
def httplibDefaultResponse : Response :=
  { status := -1, body := "", contentType := "", headers := [] }

/-- Model of `res.set_header(key, value)`. -/
def setHeader (r : Response) (k v : String) : Response :=
  { r with headers := r.headers ++ [(k, v)] }

/-- Model of `res.set_content(body, content_type)`: replaces body and
content type (a later call overwrites an earlier one). -/
def setContent (r : Response) (body ct : String) : Response :=
  { r with body := body, contentType := ct }

/-- Model of `res.status = s`. -/
def setStatus (r : Response) (s : Int) : Response :=
  { r with status := s }

/-- One invocation of an operation of the Device Command Interface,
recorded with its arguments in invocation order. -/
inductive DeviceCall where
  | switchToPMode (id : Int)
  | switchToMMode (id : Int)
  | changeBrightness (id value : Int)
  | changeAFAreaPosition (id x y : Int)
  | getCameraMode (id : Int)
  | getCameraModeStr (id : Int)
  | uploadCameraSetting (id : Int)
deriving DecidableEq, Repr

/-- The Device Command Interface (`CrSDKInterface`), an external
collaborator of the server core: each command returns a boolean
success flag, and `getCameraModeStr` returns the mode display
string.  Modelled as an opaque record of functions. -/
structure CrSDKInterface where
  switchToPMode : Int → Bool
  switchToMMode : Int → Bool
  changeBrightness : Int → Int → Bool
  changeAFAreaPosition : Int → Int → Int → Bool
  getCameraMode : Int → Bool
  getCameraModeStr : Int → String
  uploadCameraSetting : Int → Bool

/-- The query parameters a request can carry; `none` is an absent
parameter (httplib's `get_param_value` then returns ""). -/
structure Request where
  camera_id : Option String := none
  brightness_value : Option String := none
  x : Option String := none
  y : Option String := none

/-- Model of `req.get_param_value(name)`: the raw string when the
parameter is present, the empty string when absent. -/
def getParamValue (p : Option String) : String := p.getD ""

/-- What a handler produced: the final response object, the final
contents of its `resolution_json` envelope, and the Device Command
Interface operations it invoked, in order. -/
structure HandlerResult where
  response : Response
  envelope : Envelope
  calls : List DeviceCall
deriving Repr

/-- Embedding of `Server::handleSwitchToPMode` (the only handler that
null-checks `crsdkInterface_`, hence the `Option` argument).
An exception from `std::stoi` is caught by the handler's catch-all,
which only logs: the response keeps whatever was set so far. -/
def handleSwitchToPMode (crsdkInterface : Option CrSDKInterface) (req : Request) :
    HandlerResult :=
  let res := setHeader httplibDefaultResponse "Access-Control-Allow-Origin" "*"
  let resolution_json : Envelope := []
  let camera_id_param := getParamValue req.camera_id
  if camera_id_param = "" then
    { response := setContent (setStatus res 400) "Missing camera_id parameter" "text/plain",
      envelope := resolution_json, calls := [] }
  else
    match stoi camera_id_param with
    | none => { response := res, envelope := resolution_json, calls := [] }
    | some camera_id =>
      if camera_id < 0 ∨ camera_id > 3 then
        { response := setContent (setStatus res 400) "Camera_id out of range" "text/plain",
          envelope := resolution_json, calls := [] }
      else
        match crsdkInterface with
        | some dev =>
          let success := dev.switchToPMode camera_id
          let calls := [DeviceCall.switchToPMode camera_id]
          if success then
            let j := jsonInsert resolution_json "message" "Successfully switched to P mode"
            { response := setContent (setStatus res 200) (jsonDump j) "application/json",
              envelope := j, calls := calls }
          else
            let j := jsonInsert resolution_json "error" "Failed to switch to P mode"
            { response := setContent (setStatus res 500) (jsonDump j) "application/json",
              envelope := j, calls := calls }
        | none =>
          let j := jsonInsert resolution_json "error" "Failed to switch to P mode"
          { response := setContent (setStatus res 500) (jsonDump j) "application/json",
            envelope := j, calls := [] }

/-- Embedding of `Server::handleIndicator` (route "/"): always 200 with
the fixed running message and the permissive cross-origin header. -/
def handleIndicator : HandlerResult :=
  let res := setHeader httplibDefaultResponse "Access-Control-Allow-Origin" "*"
  let response_json := jsonInsert [] "message" "The server is running"
  { response := setContent (setStatus res 200) (jsonDump response_json) "application/json",
    envelope := response_json, calls := [] }

/-- Embedding of `Server::handleSwitchToMMode`.  This handler (like all
remaining ones) dereferences `crsdkInterface_` without a null check,
so the embedding takes the interface directly. -/
def handleSwitchToMMode (dev : CrSDKInterface) (req : Request) : HandlerResult :=
  let res := setHeader httplibDefaultResponse "Access-Control-Allow-Origin" "*"
  let resolution_json : Envelope := []
  let camera_id_param := getParamValue req.camera_id
  if camera_id_param = "" then
    { response := setContent (setStatus res 400) "Missing camera_id parameter" "text/plain",
      envelope := resolution_json, calls := [] }
  else
    match stoi camera_id_param with
    | none => { response := res, envelope := resolution_json, calls := [] }
    | some camera_id =>
      if camera_id < 0 ∨ camera_id > 3 then
        { response := setContent (setStatus res 400) "Camera_id out of range" "text/plain",
          envelope := resolution_json, calls := [] }
      else
        let success := dev.switchToMMode camera_id
        let calls := [DeviceCall.switchToMMode camera_id]
        if success then
          let j := jsonInsert resolution_json "message" "Successfully switched to M mode"
          { response := setContent (setStatus res 200) (jsonDump j) "application/json",
            envelope := j, calls := calls }
        else
          let j := jsonInsert resolution_json "error" "Failed to switch to M mode"
          { response := setContent (setStatus res 500) (jsonDump j) "application/json",
            envelope := j, calls := calls }

/-- Embedding of `Server::handleChangeBrightness`.  Note the source's
fall-through: when `brightness_value` is missing, the 400 plain-text
content is set inside the `else` branch, but control then reaches the
final `res.set_content(resolution_json.dump(), "application/json")`,
which overwrites the body with the dump of the untouched (null)
envelope. -/
def handleChangeBrightness (dev : CrSDKInterface) (req : Request) : HandlerResult :=
  let res := setHeader httplibDefaultResponse "Access-Control-Allow-Origin" "*"
  let resolution_json : Envelope := []
  let camera_id_param := getParamValue req.camera_id
  if camera_id_param = "" then
    { response := setContent (setStatus res 400) "Missing camera_id parameter" "text/plain",
      envelope := resolution_json, calls := [] }
  else
    match stoi camera_id_param with
    | none => { response := res, envelope := resolution_json, calls := [] }
    | some camera_id =>
      if camera_id < 0 ∨ camera_id > 3 then
        { response := setContent (setStatus res 400) "Camera_id out of range" "text/plain",
          envelope := resolution_json, calls := [] }
      else
        let brightness_value_param := getParamValue req.brightness_value
        if brightness_value_param ≠ "" then
          match stoi brightness_value_param with
          | none => { response := res, envelope := resolution_json, calls := [] }
          | some brightnessValue =>
            let success := dev.changeBrightness camera_id brightnessValue
            let calls := [DeviceCall.changeBrightness camera_id brightnessValue]
            if success then
              let j := jsonInsert resolution_json "message" "Successfully changed brightness value"
              { response := setContent (setStatus res 200) (jsonDump j) "application/json",
                envelope := j, calls := calls }
            else
              let j := jsonInsert resolution_json "error" "Failed to change brightness value"
              { response := setContent (setStatus res 500) (jsonDump j) "application/json",
                envelope := j, calls := calls }
        else
          let res1 := setContent (setStatus res 400) "Missing or invalid parameters" "text/plain"
          { response := setContent res1 (jsonDump resolution_json) "application/json",
            envelope := resolution_json, calls := [] }

/-- Embedding of `Server::handleChangeAFAreaPosition`, with the same
fall-through as the brightness handler when `x` or `y` is missing.
`std::stoi(x_param)` runs before `std::stoi(y_param)`, so a throw on
`x` prevents `y` from being parsed. -/
def handleChangeAFAreaPosition (dev : CrSDKInterface) (req : Request) : HandlerResult :=
  let res := setHeader httplibDefaultResponse "Access-Control-Allow-Origin" "*"
  let resolution_json : Envelope := []
  let camera_id_param := getParamValue req.camera_id
  if camera_id_param = "" then
    { response := setContent (setStatus res 400) "Missing camera_id parameter" "text/plain",
      envelope := resolution_json, calls := [] }
  else
    match stoi camera_id_param with
    | none => { response := res, envelope := resolution_json, calls := [] }
    | some camera_id =>
      if camera_id < 0 ∨ camera_id > 3 then
        { response := setContent (setStatus res 400) "Camera_id out of range" "text/plain",
          envelope := resolution_json, calls := [] }
      else
        let x_param := getParamValue req.x
        let y_param := getParamValue req.y
        if x_param ≠ "" ∧ y_param ≠ "" then
          match stoi x_param with
          | none => { response := res, envelope := resolution_json, calls := [] }
          | some x =>
            match stoi y_param with
            | none => { response := res, envelope := resolution_json, calls := [] }
            | some y =>
              let success := dev.changeAFAreaPosition camera_id x y
              let calls := [DeviceCall.changeAFAreaPosition camera_id x y]
              if success then
                let j := jsonInsert resolution_json "message" "Successfully changed AF Area Position"
                { response := setContent (setStatus res 200) (jsonDump j) "application/json",
                  envelope := j, calls := calls }
              else
                let j := jsonInsert resolution_json "error" "Failed to change AF Area Position"
                { response := setContent (setStatus res 500) (jsonDump j) "application/json",
                  envelope := j, calls := calls }
        else
          let res1 := setContent (setStatus res 400) "Missing or invalid parameters" "text/plain"
          { response := setContent res1 (jsonDump resolution_json) "application/json",
            envelope := resolution_json, calls := [] }

/-- Embedding of `Server::handleGetCameraMode`: on a successful
`getCameraMode` the handler also queries `getCameraModeStr` and adds
its value as the "mode" field. -/
def handleGetCameraMode (dev : CrSDKInterface) (req : Request) : HandlerResult :=
  let res := setHeader httplibDefaultResponse "Access-Control-Allow-Origin" "*"
  let resolution_json : Envelope := []
  let camera_id_param := getParamValue req.camera_id
  if camera_id_param = "" then
    { response := setContent (setStatus res 400) "Missing camera_id parameter" "text/plain",
      envelope := resolution_json, calls := [] }
  else
    match stoi camera_id_param with
    | none => { response := res, envelope := resolution_json, calls := [] }
    | some camera_id =>
      if camera_id < 0 ∨ camera_id > 3 then
        { response := setContent (setStatus res 400) "Camera_id out of range" "text/plain",
          envelope := resolution_json, calls := [] }
      else
        let success := dev.getCameraMode camera_id
        if success then
          let j := jsonInsert
            (jsonInsert resolution_json "message" "Successfully retrieved camera mode")
            "mode" (dev.getCameraModeStr camera_id)
          { response := setContent (setStatus res 200) (jsonDump j) "application/json",
            envelope := j,
            calls := [DeviceCall.getCameraMode camera_id,
                      DeviceCall.getCameraModeStr camera_id] }
        else
          let j := jsonInsert resolution_json "error" "Failed to retrieve camera mode"
          { response := setContent (setStatus res 500) (jsonDump j) "application/json",
            envelope := j, calls := [DeviceCall.getCameraMode camera_id] }

/-- Embedding of `Server::handleDownloadCameraSetting`, which delegates
to `getCameraMode` as its device probe. -/
def handleDownloadCameraSetting (dev : CrSDKInterface) (req : Request) : HandlerResult :=
  let res := setHeader httplibDefaultResponse "Access-Control-Allow-Origin" "*"
  let resolution_json : Envelope := []
  let camera_id_param := getParamValue req.camera_id
  if camera_id_param = "" then
    { response := setContent (setStatus res 400) "Missing camera_id parameter" "text/plain",
      envelope := resolution_json, calls := [] }
  else
    match stoi camera_id_param with
    | none => { response := res, envelope := resolution_json, calls := [] }
    | some camera_id =>
      if camera_id < 0 ∨ camera_id > 3 then
        { response := setContent (setStatus res 400) "Camera_id out of range" "text/plain",
          envelope := resolution_json, calls := [] }
      else
        let success := dev.getCameraMode camera_id
        let calls := [DeviceCall.getCameraMode camera_id]
        if success then
          let j := jsonInsert resolution_json "message" "Successfully download camera setting"
          { response := setContent (setStatus res 200) (jsonDump j) "application/json",
            envelope := j, calls := calls }
        else
          let j := jsonInsert resolution_json "error" "Failed to download camera setting"
          { response := setContent (setStatus res 500) (jsonDump j) "application/json",
            envelope := j, calls := calls }

/-- Embedding of `Server::handleUploadCameraSetting`. -/
def handleUploadCameraSetting (dev : CrSDKInterface) (req : Request) : HandlerResult :=
  let res := setHeader httplibDefaultResponse "Access-Control-Allow-Origin" "*"
  let resolution_json : Envelope := []
  let camera_id_param := getParamValue req.camera_id
  if camera_id_param = "" then
    { response := setContent (setStatus res 400) "Missing camera_id parameter" "text/plain",
      envelope := resolution_json, calls := [] }
  else
    match stoi camera_id_param with
    | none => { response := res, envelope := resolution_json, calls := [] }
    | some camera_id =>
      if camera_id < 0 ∨ camera_id > 3 then
        { response := setContent (setStatus res 400) "Camera_id out of range" "text/plain",
          envelope := resolution_json, calls := [] }
      else
        let success := dev.uploadCameraSetting camera_id
        let calls := [DeviceCall.uploadCameraSetting camera_id]
        if success then
          let j := jsonInsert resolution_json "message" "Successfully upload camera setting"
          { response := setContent (setStatus res 200) (jsonDump j) "application/json",
            envelope := j, calls := calls }
        else
          let j := jsonInsert resolution_json "error" "Failed to upload camera setting"
          { response := setContent (setStatus res 500) (jsonDump j) "application/json",
            envelope := j, calls := calls }

/-- The `httplib::Error` values a failed probe request can carry
(the ones the monitoring thread distinguishes, plus representatives
of the remaining kinds). -/
inductive HttplibError where
  | Connection
  | ConnectionTimeout
  | ProxyConnection
  | BindIPAddress
  | Read
  | Write
  | Canceled
  | SSLConnection
  | SSLServerVerification
  | Unknown
deriving DecidableEq, Repr

/-- What one probe cycle of the monitoring thread observes: a failed
request carrying an `httplib::Error`, a response with some status
code, or an exception thrown inside the cycle's try block. -/
inductive ProbeOutcome where
  | failed (e : HttplibError)
  | response (status : Int)
  | thrown
deriving DecidableEq, Repr

/-- Embedding of the body of one iteration of the monitoring loop in
`Server::startMonitoringThread`: the number of `restartServer()`
invocations the iteration performs for a given probe outcome.
A failed request restarts only on the connection-class errors
(`Connection`, `ConnectionTimeout`, `ProxyConnection`); a response
restarts exactly when its status is not 200; an exception is caught,
logged, and performs no restart. -/
def monitorCycleRestarts : ProbeOutcome → Nat
  | ProbeOutcome.failed e =>
      if e = HttplibError.Connection ∨ e = HttplibError.ConnectionTimeout ∨
         e = HttplibError.ProxyConnection then 1 else 0
  | ProbeOutcome.response status => if status = 200 then 0 else 1
  | ProbeOutcome.thrown => 0

/-- Primitive actions of the server's control flow, used to express the
traces of `Server::restartServer` and `Server::run`.  The teardown
and recreation actions (`closeListener`, `createListener`) and the
process-termination action (`terminate`) exist in the vocabulary so
their absence from a trace can be stated; the embedded code never
emits them. -/
inductive ServerAction where
  | sleepSeconds (n : Nat)
  | listen (host : String) (port : Int)
  | startMonitor
  | joinMonitorIfJoinable
  | logInfo (msg : String)
  | logError (msg : String)
  | closeListener
  | createListener
  | terminate
deriving DecidableEq, Repr

/-- Whether an action is a bind/serve call on the listener. -/
def isListen : ServerAction → Bool
  | ServerAction.listen _ _ => true
  | _ => false

/-- Whether an action starts the monitoring thread. -/
def isStartMonitor : ServerAction → Bool
  | ServerAction.startMonitor => true
  | _ => false

/-- Whether an action tears down or recreates listening state. -/
def isTeardown : ServerAction → Bool
  | ServerAction.closeListener => true
  | ServerAction.createListener => true
  | _ => false

/-- Whether an action terminates the process. -/
def isTerminate : ServerAction → Bool
  | ServerAction.terminate => true
  | _ => false

/-- Embedding of `Server::restartServer`: sleep one second, then call
`server.listen(host_, port_)` again on the same member object, then
log success.  Nothing is closed or recreated first. -/
def restartServerTrace (host : String) (port : Int) : List ServerAction :=
  [ServerAction.sleepSeconds 1,
   ServerAction.listen host port,
   ServerAction.logInfo "Server initialization succeeded"]

/-- Embedding of `Server::isPortAvailable`: a failed `socket()` call
throws, otherwise the result is decided by the sign of the transient
`bind()` result (the socket is closed either way). -/
def isPortAvailable (sockfd bind_result : Int) : Except String Bool :=
  if sockfd < 0 then Except.error "Failed to create socket!"
  else if bind_result < 0 then Except.ok false
  else Except.ok true

/-- Embedding of `Server::run` as the trace of actions it performs,
driven by the outcome of the port-availability check.  When the check
fails (or itself throws), `run` throws a `std::runtime_error` that its
own catch block catches and logs as a server error; `run` then falls
through to joining the monitoring thread and returns normally —
nothing terminates the process. -/
def runTrace (host : String) (port : Int) (portCheck : Except String Bool) :
    List ServerAction :=
  match portCheck with
  | Except.error msg =>
      [ServerAction.logError ("Server Error: " ++ msg),
       ServerAction.joinMonitorIfJoinable]
  | Except.ok false =>
      [ServerAction.logError
         ("Server Error: Port " ++ toString port ++ " is not available!"),
       ServerAction.joinMonitorIfJoinable]
  | Except.ok true =>
      [ServerAction.logInfo
         ("The server runs at address: " ++ host ++ ":" ++ toString port),
       ServerAction.startMonitor,
       ServerAction.listen host port,
       ServerAction.logInfo "Start listening successfully",
       ServerAction.joinMonitorIfJoinable]

/-- The two camera exposure-program modes the system switches between. -/
inductive CameraMode where
  | P
  | M
deriving DecidableEq, Repr

/-- Modelled from the spec: the implementation of `CrSDKInterface`
(the Device Command Interface) is an external collaborator whose
source is not part of the served core, so its behaviour is taken from
the spec — every operation returns a boolean success indicator, and
`getCameraModeStr` returns the display string of the camera's
exposure-program mode (P/auto or M/manual).  `modeOk` gives each
command's success flag and `mode` each camera's current mode. -/
def specDevice (modeOk : Int → Bool) (mode : Int → CameraMode) : CrSDKInterface :=
  { switchToPMode := modeOk
    switchToMMode := modeOk
    changeBrightness := fun id _ => modeOk id
    changeAFAreaPosition := fun id _ _ => modeOk id
    getCameraMode := modeOk
    getCameraModeStr := fun id =>
      match mode id with
      | CameraMode.P => "p"
      | CameraMode.M => "m"
    uploadCameraSetting := modeOk }

/-- A concrete device interface on which every command succeeds,
used to evaluate handlers at concrete requests. -/
def okDevice : CrSDKInterface :=
  specDevice (fun _ => true) (fun _ => CameraMode.P)

/-- A concrete device interface on which every command fails,
used to evaluate handlers at concrete requests. -/
def failDevice : CrSDKInterface :=
  specDevice (fun _ => false) (fun _ => CameraMode.P)

/-- The permissive cross-origin header every handler sets first. -/
def corsHeader : String × String := ("Access-Control-Allow-Origin", "*")

lemma stoi_empty : stoi "" = none := rfl

lemma stoi_ne_empty {s : String} {c : Int} (h : stoi s = some c) : ¬ s = "" := by
  intro he
  rw [he, stoi_empty] at h
  exact Option.noConfusion h

/-- C3: for a /switch_to_p_mode request whose camera_id parses to an
in-range value, a device interface returning true yields exactly
status 200 with JSON body \x7b"message":"Successfully switched to P
mode"\x7d, and one returning false yields exactly status 500 with JSON
body \x7b"error":"Failed to switch to P mode"\x7d. -/
theorem C3_switch_to_p_mode_exact (dev : CrSDKInterface) (s : String) (c : Int)
    (hp : stoi s = some c) (h0 : 0 ≤ c) (h3 : c ≤ 3) :
    (dev.switchToPMode c = true →
      (handleSwitchToPMode (some dev) { camera_id := some s }).response =
        { status := 200,
          body := "\x7b\"message\":\"Successfully switched to P mode\"\x7d",
          contentType := "application/json",
          headers := [corsHeader] }) ∧
    (dev.switchToPMode c = false →
      (handleSwitchToPMode (some dev) { camera_id := some s }).response =
        { status := 500,
          body := "\x7b\"error\":\"Failed to switch to P mode\"\x7d",
          contentType := "application/json",
          headers := [corsHeader] }) := by
  have hne : ¬ s = "" := stoi_ne_empty hp
  have hin : ¬ (c < 0 ∨ c > 3) := by omega
  constructor <;> intro hdev <;>
    simp only [handleSwitchToPMode, getParamValue, Option.getD, if_neg hne, hp,
      if_neg hin, hdev] <;> rfl

/-- C3 witness: concrete instances with camera_id "1" and a device
returning true (resp. false). -/
theorem C3_switch_to_p_mode_exact_witness :
    (handleSwitchToPMode (some okDevice) { camera_id := some "1" }).response =
      { status := 200,
        body := "\x7b\"message\":\"Successfully switched to P mode\"\x7d",
        contentType := "application/json",
        headers := [corsHeader] } ∧
    (handleSwitchToPMode (some failDevice) { camera_id := some "1" }).response =
      { status := 500,
        body := "\x7b\"error\":\"Failed to switch to P mode\"\x7d",
        contentType := "application/json",
        headers := [corsHeader] } :=
  ⟨(C3_switch_to_p_mode_exact okDevice "1" 1 (by decide) (by decide) (by decide)).1 rfl,
   (C3_switch_to_p_mode_exact failDevice "1" 1 (by decide) (by decide) (by decide)).2 rfl⟩

/-- C4: a /change_brightness request whose camera_id parses to a value
outside [0,3] gets status 400 with plain-text body "Camera_id out of
range", and no Device Command Interface operation is invoked. -/
theorem C4_change_brightness_out_of_range (dev : CrSDKInterface)
    (s : String) (bv x y : Option String) (c : Int)
    (hp : stoi s = some c) (hout : c < 0 ∨ c > 3) :
    (handleChangeBrightness dev
        { camera_id := some s, brightness_value := bv, x := x, y := y }).response =
      { status := 400, body := "Camera_id out of range",
        contentType := "text/plain", headers := [corsHeader] } ∧
    (handleChangeBrightness dev
        { camera_id := some s, brightness_value := bv, x := x, y := y }).calls = [] := by
  have hne : ¬ s = "" := stoi_ne_empty hp
  constructor <;>
    simp only [handleChangeBrightness, getParamValue, Option.getD, if_neg hne, hp,
      if_pos hout] <;> rfl

/-- C4 witness: camera_id "5" (value 5, out of range). -/
theorem C4_change_brightness_out_of_range_witness :
    (handleChangeBrightness okDevice
        { camera_id := some "5", brightness_value := some "10" }).response =
      { status := 400, body := "Camera_id out of range",
        contentType := "text/plain", headers := [corsHeader] } ∧
    (handleChangeBrightness okDevice
        { camera_id := some "5", brightness_value := some "10" }).calls = [] :=
  C4_change_brightness_out_of_range okDevice "5" (some "10") none none 5
    (by decide) (by decide)

/-- C10: a /switch_to_p_mode request with an in-range camera_id and a
null Device Command Interface reference does not invoke (dereference)
the interface and responds 500 with the JSON error envelope
\x7b"error":"Failed to switch to P mode"\x7d. -/
theorem C10_switch_to_p_mode_null_guard (s : String) (c : Int)
    (hp : stoi s = some c) (h0 : 0 ≤ c) (h3 : c ≤ 3) :
    (handleSwitchToPMode none { camera_id := some s }).response =
      { status := 500,
        body := "\x7b\"error\":\"Failed to switch to P mode\"\x7d",
        contentType := "application/json",
        headers := [corsHeader] } ∧
    (handleSwitchToPMode none { camera_id := some s }).calls = [] := by
  have hne : ¬ s = "" := stoi_ne_empty hp
  have hin : ¬ (c < 0 ∨ c > 3) := by omega
  constructor <;>
    simp only [handleSwitchToPMode, getParamValue, Option.getD, if_neg hne, hp,
      if_neg hin] <;> rfl

/-- C10 witness: camera_id "2" with a null interface. -/
theorem C10_switch_to_p_mode_null_guard_witness :
    (handleSwitchToPMode none { camera_id := some "2" }).response =
      { status := 500,
        body := "\x7b\"error\":\"Failed to switch to P mode\"\x7d",
        contentType := "application/json",
        headers := [corsHeader] } ∧
    (handleSwitchToPMode none { camera_id := some "2" }).calls = [] :=
  C10_switch_to_p_mode_null_guard "2" 2 (by decide) (by decide) (by decide)

/-- C1: actual validation behaviour of a camera_id handler
(switch_to_p_mode, representative of the uniform inline pattern).
An in-range parsed camera_id passes validation and reaches the device
call; an absent camera_id and an out-of-range parsed camera_id yield
400; but a present non-numeric camera_id makes `std::stoi` throw, the
handler's catch-all only logs, and the response is left with the
transport's sentinel status -1 and an empty body — not 400 as the
claim states. -/
theorem C1_camera_id_validation_behavior :
    (∀ (dev : CrSDKInterface) (s : String) (c : Int),
       stoi s = some c → 0 ≤ c → c ≤ 3 →
       (handleSwitchToPMode (some dev) { camera_id := some s }).calls =
         [DeviceCall.switchToPMode c]) ∧
    (∀ dev : CrSDKInterface,
       (handleSwitchToPMode (some dev) { }).response =
         { status := 400, body := "Missing camera_id parameter",
           contentType := "text/plain", headers := [corsHeader] }) ∧
    (∀ (dev : CrSDKInterface) (s : String) (c : Int),
       stoi s = some c → (c < 0 ∨ c > 3) →
       (handleSwitchToPMode (some dev) { camera_id := some s }).response =
         { status := 400, body := "Camera_id out of range",
           contentType := "text/plain", headers := [corsHeader] }) ∧
    (∀ (dev : CrSDKInterface) (s : String),
       ¬ s = "" → stoi s = none →
       (handleSwitchToPMode (some dev) { camera_id := some s }).response =
         { status := -1, body := "", contentType := "",
           headers := [corsHeader] }) := by
  refine ⟨?_, ?_, ?_, ?_⟩
  · intro dev s c hp h0 h3
    have hne : ¬ s = "" := stoi_ne_empty hp
    have hin : ¬ (c < 0 ∨ c > 3) := by omega
    simp only [handleSwitchToPMode, getParamValue, Option.getD, if_neg hne, hp,
      if_neg hin]
    cases dev.switchToPMode c <;> rfl
  · intro dev
    rfl
  · intro dev s c hp hout
    have hne : ¬ s = "" := stoi_ne_empty hp
    simp only [handleSwitchToPMode, getParamValue, Option.getD, if_neg hne, hp,
      if_pos hout]
    rfl
  · intro dev s hne hp
    simp only [handleSwitchToPMode, getParamValue, Option.getD, if_neg hne, hp]
    rfl

/-- C1 witness: concrete instances — camera_id "2" reaches the device
call, absence and "5" yield 400, and the non-numeric "abc" leaves the
sentinel status -1 (no 400). -/
theorem C1_camera_id_validation_behavior_witness :
    (handleSwitchToPMode (some okDevice) { camera_id := some "2" }).calls =
      [DeviceCall.switchToPMode 2] ∧
    (handleSwitchToPMode (some okDevice) { }).response =
      { status := 400, body := "Missing camera_id parameter",
        contentType := "text/plain", headers := [corsHeader] } ∧
    (handleSwitchToPMode (some okDevice) { camera_id := some "5" }).response =
      { status := 400, body := "Camera_id out of range",
        contentType := "text/plain", headers := [corsHeader] } ∧
    (handleSwitchToPMode (some okDevice) { camera_id := some "abc" }).response =
      { status := -1, body := "", contentType := "", headers := [corsHeader] } :=
  ⟨C1_camera_id_validation_behavior.1 okDevice "2" 2 (by decide) (by decide) (by decide),
   C1_camera_id_validation_behavior.2.1 okDevice,
   C1_camera_id_validation_behavior.2.2.1 okDevice "5" 5 (by decide) (by decide),
   C1_camera_id_validation_behavior.2.2.2 okDevice "abc" (by decide) (by decide)⟩

/-- C7: restart policy of one monitoring-loop iteration — exactly one
restart on a connection-class request failure (Connection,
ConnectionTimeout, ProxyConnection) or on a non-200 response status;
zero restarts on a 200 response, on any other request error, and on a
caught probe-level exception. -/
theorem C7_monitor_restart_policy :
    (∀ e : HttplibError,
       (e = HttplibError.Connection ∨ e = HttplibError.ConnectionTimeout ∨
        e = HttplibError.ProxyConnection) →
       monitorCycleRestarts (ProbeOutcome.failed e) = 1) ∧
    (∀ st : Int, ¬ st = 200 → monitorCycleRestarts (ProbeOutcome.response st) = 1) ∧
    monitorCycleRestarts (ProbeOutcome.response 200) = 0 ∧
    (∀ e : HttplibError,
       ¬ e = HttplibError.Connection → ¬ e = HttplibError.ConnectionTimeout →
       ¬ e = HttplibError.ProxyConnection →
       monitorCycleRestarts (ProbeOutcome.failed e) = 0) ∧
    monitorCycleRestarts ProbeOutcome.thrown = 0 := by
  refine ⟨?_, ?_, rfl, ?_, rfl⟩
  · intro e he
    simp only [monitorCycleRestarts, if_pos he]
  · intro st hst
    simp only [monitorCycleRestarts, if_neg hst]
  · intro e h1 h2 h3
    have : ¬ (e = HttplibError.Connection ∨ e = HttplibError.ConnectionTimeout ∨
        e = HttplibError.ProxyConnection) := by
      intro h
      rcases h with h | h | h
      · exact h1 h
      · exact h2 h
      · exact h3 h
    simp only [monitorCycleRestarts, if_neg this]

/-- C7 witness: a connection failure and a 500 status each trigger one
restart; a Read error triggers none. -/
theorem C7_monitor_restart_policy_witness :
    monitorCycleRestarts (ProbeOutcome.failed HttplibError.Connection) = 1 ∧
    monitorCycleRestarts (ProbeOutcome.response 500) = 1 ∧
    monitorCycleRestarts (ProbeOutcome.failed HttplibError.Read) = 0 :=
  ⟨C7_monitor_restart_policy.1 HttplibError.Connection (Or.inl rfl),
   C7_monitor_restart_policy.2.1 500 (by decide),
   C7_monitor_restart_policy.2.2.2.1 HttplibError.Read (by decide) (by decide) (by decide)⟩

/-- C8: the Restart Supervisor first sleeps one second and then
re-issues the listen call on the existing listener with the original
host and port, performing no teardown or recreation of listening
state. -/
theorem C8_restart_supervisor (host : String) (port : Int) :
    restartServerTrace host port =
      [ServerAction.sleepSeconds 1,
       ServerAction.listen host port,
       ServerAction.logInfo "Server initialization succeeded"] ∧
    (restartServerTrace host port).all (fun a => !isTeardown a) = true := by
  exact ⟨rfl, rfl⟩

/-- C9 counterexample: with the port check failing (transient bind
returned -1), `run` emits no process-terminating action — it logs the
caught runtime error and proceeds to join the monitoring thread,
returning normally.  The claim's "terminating the process" is false
at this input. -/
theorem C9_counterexample :
    isPortAvailable 3 (-1) = Except.ok false ∧
    runTrace "0.0.0.0" 8085 (Except.ok false) =
      [ServerAction.logError "Server Error: Port 8085 is not available!",
       ServerAction.joinMonitorIfJoinable] ∧
    ¬ ServerAction.terminate ∈ runTrace "0.0.0.0" 8085 (Except.ok false) := by
  refine ⟨rfl, rfl, ?_⟩
  decide

/-- C9 amended: if the transient port check fails (bind failed, or the
check itself threw), `run` never begins listening and never starts
the monitoring thread; the failure is caught and logged inside `run`,
which returns normally, and no outcome of `run` performs a
process-terminating action. -/
theorem C9_port_check_failure (host : String) (port : Int)
    (chk : Except String Bool) (h : ¬ chk = Except.ok true) :
    (runTrace host port chk).all
      (fun a => !isListen a && !isStartMonitor a && !isTerminate a) = true ∧
    (∀ chk2 : Except String Bool,
       (runTrace host port chk2).all (fun a => !isTerminate a) = true) := by
  constructor
  · match chk with
    | Except.error msg => rfl
    | Except.ok false => rfl
    | Except.ok true => exact absurd rfl h
  · intro chk2
    match chk2 with
    | Except.error msg => rfl
    | Except.ok false => rfl
    | Except.ok true => rfl

/-- C9 amended witness: concrete failed port check. -/
theorem C9_port_check_failure_witness :
    (runTrace "0.0.0.0" 8085 (Except.ok false)).all
      (fun a => !isListen a && !isStartMonitor a && !isTerminate a) = true ∧
    (runTrace "0.0.0.0" 8085 (Except.error "Failed to create socket!")).all
      (fun a => !isTerminate a) = true :=
  ⟨(C9_port_check_failure "0.0.0.0" 8085 (Except.ok false)
      (by intro h; simp at h)).1,
   (C9_port_check_failure "0.0.0.0" 8085 (Except.ok false)
      (by intro h; simp at h)).2
     (Except.error "Failed to create socket!")⟩

/-- C6: on a /get_camera_mode request with an in-range camera_id
against the spec-modelled device interface, a successful
getCameraMode yields a 200 response whose envelope carries both the
message field and a non-empty mode field holding getCameraModeStr's
string, with getCameraModeStr invoked only after the successful
getCameraMode; on a failed getCameraMode, getCameraModeStr is never
invoked. -/
theorem C6_get_camera_mode_enrichment (modeOk : Int → Bool) (mode : Int → CameraMode)
    (s : String) (c : Int)
    (hp : stoi s = some c) (h0 : 0 ≤ c) (h3 : c ≤ 3) :
    (modeOk c = true →
      (handleGetCameraMode (specDevice modeOk mode) { camera_id := some s }).response.status = 200 ∧
      envHas (handleGetCameraMode (specDevice modeOk mode) { camera_id := some s }).envelope
        "message" = true ∧
      envGet (handleGetCameraMode (specDevice modeOk mode) { camera_id := some s }).envelope
        "mode" = some ((specDevice modeOk mode).getCameraModeStr c) ∧
      ¬ (specDevice modeOk mode).getCameraModeStr c = "" ∧
      (handleGetCameraMode (specDevice modeOk mode) { camera_id := some s }).calls =
        [DeviceCall.getCameraMode c, DeviceCall.getCameraModeStr c]) ∧
    (modeOk c = false →
      ¬ DeviceCall.getCameraModeStr c ∈
        (handleGetCameraMode (specDevice modeOk mode) { camera_id := some s }).calls) := by
  have hne : ¬ s = "" := stoi_ne_empty hp
  have hin : ¬ (c < 0 ∨ c > 3) := by omega
  constructor <;> intro hdev
  · have hm : (specDevice modeOk mode).getCameraMode c = true := hdev
    have hr : handleGetCameraMode (specDevice modeOk mode) { camera_id := some s } =
        { response :=
            { status := 200,
              body := jsonDump [("message", "Successfully retrieved camera mode"),
                                ("mode", (specDevice modeOk mode).getCameraModeStr c)],
              contentType := "application/json",
              headers := [corsHeader] },
          envelope := [("message", "Successfully retrieved camera mode"),
                       ("mode", (specDevice modeOk mode).getCameraModeStr c)],
          calls := [DeviceCall.getCameraMode c, DeviceCall.getCameraModeStr c] } := by
      simp only [handleGetCameraMode, getParamValue, Option.getD, if_neg hne, hp,
        if_neg hin, hm, if_true, eq_self_iff_true, ite_true]
      rfl
    rw [hr]
    refine ⟨rfl, rfl, rfl, ?_, rfl⟩
    show ¬ (specDevice modeOk mode).getCameraModeStr c = ""
    simp only [specDevice]
    cases mode c <;> decide
  · have hm : (specDevice modeOk mode).getCameraMode c = false := hdev
    have hr : handleGetCameraMode (specDevice modeOk mode) { camera_id := some s } =
        { response :=
            { status := 500,
              body := jsonDump [("error", "Failed to retrieve camera mode")],
              contentType := "application/json",
              headers := [corsHeader] },
          envelope := [("error", "Failed to retrieve camera mode")],
          calls := [DeviceCall.getCameraMode c] } := by
      simp only [handleGetCameraMode, getParamValue, Option.getD, if_neg hne, hp,
        if_neg hin, hm, Bool.false_eq_true, ite_false]
      rfl
    rw [hr]
    simp

/-- C6 witness: camera_id "0" with an all-success device in mode P,
and an all-failure device. -/
theorem C6_get_camera_mode_enrichment_witness :
    ((handleGetCameraMode okDevice { camera_id := some "0" }).response.status = 200 ∧
     envHas (handleGetCameraMode okDevice { camera_id := some "0" }).envelope "message" = true ∧
     envGet (handleGetCameraMode okDevice { camera_id := some "0" }).envelope "mode" =
       some (okDevice.getCameraModeStr 0) ∧
     ¬ okDevice.getCameraModeStr 0 = "" ∧
     (handleGetCameraMode okDevice { camera_id := some "0" }).calls =
       [DeviceCall.getCameraMode 0, DeviceCall.getCameraModeStr 0]) ∧
    ¬ DeviceCall.getCameraModeStr 0 ∈
      (handleGetCameraMode failDevice { camera_id := some "0" }).calls :=
  ⟨(C6_get_camera_mode_enrichment (fun _ => true) (fun _ => CameraMode.P) "0" 0
      (by decide) (by decide) (by decide)).1 rfl,
   (C6_get_camera_mode_enrichment (fun _ => false) (fun _ => CameraMode.P) "0" 0
      (by decide) (by decide) (by decide)).2 rfl⟩

/-- The seven route handlers that take a camera_id, each applied to a
device interface, in route-registration order (the P-mode handler is
applied to a present interface). -/
def cameraIdHandlers (dev : CrSDKInterface) : List (Request → HandlerResult) :=
  [handleSwitchToPMode (some dev), handleSwitchToMMode dev, handleChangeBrightness dev,
   handleChangeAFAreaPosition dev, handleGetCameraMode dev, handleDownloadCameraSetting dev,
   handleUploadCameraSetting dev]

/-- The 400 response for a missing camera_id shared by all camera_id
handlers. -/
def missingCameraIdResponse : Response :=
  { status := 400, body := "Missing camera_id parameter",
    contentType := "text/plain", headers := [corsHeader] }

/-- The 400 response for an out-of-range camera_id shared by all
camera_id handlers. -/
def outOfRangeResponse : Response :=
  { status := 400, body := "Camera_id out of range",
    contentType := "text/plain", headers := [corsHeader] }

/-- The 400 response actually produced when a handler-specific
parameter is missing in the brightness / AF-position handlers: the
plain-text content is overwritten by the trailing
`set_content(resolution_json.dump(), "application/json")`, leaving
the JSON dump of the untouched null envelope. -/
def overwrittenParamErrorResponse : Response :=
  { status := 400, body := "null",
    contentType := "application/json", headers := [corsHeader] }

/-- C2 counterexample: a /change_brightness request with a valid
camera_id but no brightness_value gets status 400 whose body is the
JSON document "null" with content type application/json — not plain
text as the claim states. -/
theorem C2_counterexample :
    (handleChangeBrightness okDevice { camera_id := some "1" }).response.status = 400 ∧
    (handleChangeBrightness okDevice { camera_id := some "1" }).response.contentType =
      "application/json" ∧
    (handleChangeBrightness okDevice { camera_id := some "1" }).response.body = "null" :=
  ⟨rfl, rfl, rfl⟩

/-- C2 amended: camera_id validation failures (missing or out-of-range)
yield 400 with a fixed plain-text body on every camera_id handler;
a missing handler-specific parameter (brightness_value, or x or y)
also yields 400, but its plain-text content is overwritten by the
final JSON set_content, so the body is the JSON "null" document with
content type application/json. -/
theorem C2_validation_error_bodies :
    (∀ (dev : CrSDKInterface) (h : Request → HandlerResult),
       h ∈ cameraIdHandlers dev → ∀ req : Request, req.camera_id = none →
       (h req).response = missingCameraIdResponse) ∧
    (∀ (dev : CrSDKInterface) (h : Request → HandlerResult),
       h ∈ cameraIdHandlers dev → ∀ (req : Request) (s : String) (c : Int),
       req.camera_id = some s → stoi s = some c → (c < 0 ∨ c > 3) →
       (h req).response = outOfRangeResponse) ∧
    (∀ (dev : CrSDKInterface) (s : String) (c : Int) (bvo : Option String),
       stoi s = some c → ¬ (c < 0 ∨ c > 3) → getParamValue bvo = "" →
       (handleChangeBrightness dev
           { camera_id := some s, brightness_value := bvo }).response =
         overwrittenParamErrorResponse) ∧
    (∀ (dev : CrSDKInterface) (s : String) (c : Int) (xo yo : Option String),
       stoi s = some c → ¬ (c < 0 ∨ c > 3) →
       (getParamValue xo = "" ∨ getParamValue yo = "") →
       (handleChangeAFAreaPosition dev
           { camera_id := some s, x := xo, y := yo }).response =
         overwrittenParamErrorResponse) := by
  refine ⟨?_, ?_, ?_, ?_⟩
  · intro dev h hh req hc
    obtain ⟨cid, bv, xo, yo⟩ := req
    cases hc
    simp only [cameraIdHandlers, List.mem_cons, List.not_mem_nil, or_false] at hh
    rcases hh with rfl | rfl | rfl | rfl | rfl | rfl | rfl
    all_goals rfl
  · intro dev h hh req s c hcs hp hout
    have hne : ¬ s = "" := stoi_ne_empty hp
    obtain ⟨cid, bv, xo, yo⟩ := req
    cases hcs
    simp only [cameraIdHandlers, List.mem_cons, List.not_mem_nil, or_false] at hh
    rcases hh with rfl | rfl | rfl | rfl | rfl | rfl | rfl
    all_goals
      simp only [handleSwitchToPMode, handleSwitchToMMode, handleChangeBrightness,
        handleChangeAFAreaPosition, handleGetCameraMode, handleDownloadCameraSetting,
        handleUploadCameraSetting, getParamValue, Option.getD, if_neg hne, hp,
        if_pos hout]
      rfl
  · intro dev s c bvo hp hin hb
    have hne : ¬ s = "" := stoi_ne_empty hp
    rcases bvo with _ | bs
    · simp only [handleChangeBrightness, getParamValue, Option.getD, if_neg hne, hp,
        if_neg hin]
      rfl
    · have hbs : bs = "" := hb
      subst hbs
      simp only [handleChangeBrightness, getParamValue, Option.getD, if_neg hne, hp,
        if_neg hin]
      rfl
  · intro dev s c xo yo hp hin hxy
    have hne : ¬ s = "" := stoi_ne_empty hp
    rcases xo with _ | xs
    · simp only [handleChangeAFAreaPosition, getParamValue, Option.getD, if_neg hne, hp,
        if_neg hin]
      rw [if_neg (by simp)]
      rfl
    · rcases hxy with hxs | hys
      · have hxe : xs = "" := hxs
        subst hxe
        simp only [handleChangeAFAreaPosition, getParamValue, Option.getD, if_neg hne, hp,
          if_neg hin]
        rw [if_neg (by simp)]
        rfl
      · rcases yo with _ | ys
        · simp only [handleChangeAFAreaPosition, getParamValue, Option.getD, if_neg hne, hp,
            if_neg hin]
          rw [if_neg (by simp)]
          rfl
        · have hye : ys = "" := hys
          subst hye
          simp only [handleChangeAFAreaPosition, getParamValue, Option.getD, if_neg hne, hp,
            if_neg hin]
          rw [if_neg (by simp)]
          rfl

/-- C2 amended witness: concrete requests — missing camera_id on
/switch_to_p_mode, camera_id "7" on /switch_to_p_mode, missing
brightness_value, and missing y. -/
theorem C2_validation_error_bodies_witness :
    (handleSwitchToPMode (some okDevice) { }).response = missingCameraIdResponse ∧
    (handleSwitchToPMode (some okDevice) { camera_id := some "7" }).response =
      outOfRangeResponse ∧
    (handleChangeBrightness okDevice { camera_id := some "1" }).response =
      overwrittenParamErrorResponse ∧
    (handleChangeAFAreaPosition okDevice
        { camera_id := some "1", x := some "3" }).response =
      overwrittenParamErrorResponse :=
  ⟨C2_validation_error_bodies.1 okDevice _ (List.Mem.head _) { } rfl,
   C2_validation_error_bodies.2.1 okDevice _ (List.Mem.head _)
     { camera_id := some "7" } "7" 7 rfl (by decide) (by decide),
   C2_validation_error_bodies.2.2.1 okDevice "1" 1 none (by decide) (by decide) rfl,
   C2_validation_error_bodies.2.2.2 okDevice "1" 1 (some "3") none
     (by decide) (by decide) (Or.inr rfl)⟩

/-- The response-envelope/status consistency a handler result actually
maintains, together with the always-set permissive cross-origin
header: a 200 envelope has exactly the message field, a 500 envelope
exactly the error field, and a 400 (validation-failure) envelope has
neither. -/
def statusEnvelopeConsistent (h : HandlerResult) : Bool :=
  h.response.headers.contains corsHeader &&
  (h.response.status != 200 ||
     (envHas h.envelope "message" && !envHas h.envelope "error")) &&
  (h.response.status != 500 ||
     (envHas h.envelope "error" && !envHas h.envelope "message")) &&
  (h.response.status != 400 ||
     (!envHas h.envelope "message" && !envHas h.envelope "error"))

/-- C5 counterexample: a /switch_to_p_mode request with no camera_id is
answered 400 with the fixed plain-text body; its envelope carries
neither a message nor an error field, so "exactly one of message and
error is present" fails for this response. -/
theorem C5_counterexample :
    (handleSwitchToPMode (some okDevice) { }).response.status = 400 ∧
    envHas (handleSwitchToPMode (some okDevice) { }).envelope "message" = false ∧
    envHas (handleSwitchToPMode (some okDevice) { }).envelope "error" = false ∧
    (handleSwitchToPMode (some okDevice) { }).response.body =
      "Missing camera_id parameter" :=
  ⟨rfl, rfl, rfl, rfl⟩

/-- C5 amended: every response of every route handler carries the
permissive cross-origin header, a 200 envelope has exactly the
message field, a 500 envelope exactly the error field, and a 400
validation response has neither field. -/
theorem C5_envelope_and_cors_invariant (dev : CrSDKInterface) (req : Request) :
    statusEnvelopeConsistent handleIndicator = true ∧
    statusEnvelopeConsistent (handleSwitchToPMode (some dev) req) = true ∧
    statusEnvelopeConsistent (handleSwitchToPMode none req) = true ∧
    statusEnvelopeConsistent (handleSwitchToMMode dev req) = true ∧
    statusEnvelopeConsistent (handleChangeBrightness dev req) = true ∧
    statusEnvelopeConsistent (handleChangeAFAreaPosition dev req) = true ∧
    statusEnvelopeConsistent (handleGetCameraMode dev req) = true ∧
    statusEnvelopeConsistent (handleDownloadCameraSetting dev req) = true ∧
    statusEnvelopeConsistent (handleUploadCameraSetting dev req) = true := by
  refine ⟨rfl, ?_, ?_, ?_, ?_, ?_, ?_, ?_, ?_⟩
  · unfold handleSwitchToPMode
    dsimp only
    repeat' split
    all_goals rfl
  · unfold handleSwitchToPMode
    dsimp only
    repeat' split
    all_goals rfl
  · unfold handleSwitchToMMode
    dsimp only
    repeat' split
    all_goals rfl
  · unfold handleChangeBrightness
    dsimp only
    repeat' split
    all_goals rfl
  · unfold handleChangeAFAreaPosition
    dsimp only
    repeat' split
    all_goals rfl
  · unfold handleGetCameraMode
    dsimp only
    repeat' split
    all_goals rfl
  · unfold handleDownloadCameraSetting
    dsimp only
    repeat' split
    all_goals rfl
  · unfold handleUploadCameraSetting
    dsimp only
    repeat' split
    all_goals rfl

end CrServer
